import Mathlib

/-!
# PeopleDetector — shallow embedding and verification

A shallow embedding of the PeopleDetector Arduino sketch
(`PeopleDetector.ino` / `PeopleDetector.h`): a four-state cyclic state
machine (READY → DELAY → FIRE → REARM → READY) driven each tick by an
arbitrated action (time expiry, trigger pin, reset pin), with a
millisecond wait timer per state, optionally scaled by an analog input.

Machine integers: Arduino `unsigned long` is 32-bit; it is modelled as
`Nat` with an explicit `% 2 ^ 32` where the code can overflow.  Pins are
`Int` with the sentinel `NOTUSED = -1` exactly as in the source.  The
per-tick hardware inputs (`digitalRead`, `analogRead`, `millis`) are
passed as explicit parameters.
-/

namespace PeopleDetector

/-- `#define NOTUSED -1` (PeopleDetector.h): sentinel for an unused pin. -/
def NOTUSED : Int := -1

/-- Arduino `HIGH` (0x1). -/
def HIGH : Int := 1

/-- Arduino `LOW` (0x0). -/
def LOW : Int := 0

/-- Arduino `unsigned long` is 32 bits: values live below `2 ^ 32`. -/
def ULONG_MOD : Nat := 2 ^ 32

/-- `enum Action {ACTION_NONE = 0, ACTION_TRIGGER = 1, ACTION_END_TIME = 2,
ACTION_RESET = 3}` (PeopleDetector.h). -/
inductive Action where
  | ACTION_NONE
  | ACTION_TRIGGER
  | ACTION_END_TIME
  | ACTION_RESET
  deriving DecidableEq, Repr

/-- `enum State {STATE_READY = 0, STATE_DELAY = 1, STATE_FIRE = 2,
STATE_REARM = 3}` (PeopleDetector.h). -/
inductive State where
  | STATE_READY
  | STATE_DELAY
  | STATE_FIRE
  | STATE_REARM
  deriving DecidableEq, Repr

/-! ## Pin and timing constants (PeopleDetector.ino, top of file) -/

/-- `const int END_READY_PIN = 2;` — the trigger pin. -/
def END_READY_PIN : Int := 2

/-- `const int END_DELAY_PIN = NOTUSED;` -/
def END_DELAY_PIN : Int := NOTUSED

/-- `const int END_FIRE_PIN = NOTUSED;` -/
def END_FIRE_PIN : Int := NOTUSED

/-- `const int END_REARM_PIN = NOTUSED;` -/
def END_REARM_PIN : Int := NOTUSED

/-- `const int RESET_PIN = NOTUSED;` -/
def RESET_PIN : Int := NOTUSED

/-- Arduino Uno analog pin numbers `A0..A3` are digital pins 14..17. -/
def A0 : Int := 14

def A1 : Int := 15

def A2 : Int := 16

def A3 : Int := 17

/-- `const int READY_TIME_PIN = A3;` -/
def READY_TIME_PIN : Int := A3

/-- `const int DELAY_TIME_PIN = A2;` -/
def DELAY_TIME_PIN : Int := A2

/-- `const int FIRE_TIME_PIN = A1;` -/
def FIRE_TIME_PIN : Int := A1

/-- `const int REARM_TIME_PIN = A0;` -/
def REARM_TIME_PIN : Int := A0

/-- `const int READY_PIN = 7;` — READY indicator LED. -/
def READY_PIN : Int := 7

/-- `const int DELAY_PIN = 8;` — DELAY indicator LED. -/
def DELAY_PIN : Int := 8

/-- `const int FIRE_PIN = 9;` — FIRE indicator / actuator. -/
def FIRE_PIN : Int := 9

/-- `const int REARM_PIN = 10;` — REARM indicator LED. -/
def REARM_PIN : Int := 10

/-- `const unsigned long READY_TIME = TIME_CALC(10, MINUTES);` = 600000. -/
def READY_TIME : Nat := 10 * (60 * 1000)

/-- `const unsigned long DELAY_TIME = TIME_CALC(30, SECONDS);` = 30000. -/
def DELAY_TIME : Nat := 30 * 1000

/-- `const unsigned long FIRE_TIME = TIME_CALC(10, SECONDS);` = 10000. -/
def FIRE_TIME : Nat := 10 * 1000

/-- `const unsigned long REARM_TIME = TIME_CALC(20, MINUTES);` = 1200000. -/
def REARM_TIME : Nat := 20 * (60 * 1000)

/-! ## Transient globals of the sketch

The sketch holds `waiting`, `waitUntil` and `actionPin` as file-scope
mutable variables written by `wait` and read by `doneWaiting` and the
trigger check in `loop`.  `currTime` is sampled once per tick from
`millis()` and is passed explicitly here. -/

/-- The transient globals `waiting : bool`, `waitUntil : unsigned long`,
`actionPin : int` of PeopleDetector.ino. -/
structure Globals where
  waiting : Bool
  waitUntil : Nat
  actionPin : Int
  deriving DecidableEq, Repr

/-! ## Hardware-abstraction helpers -/

/-- `int readPin (int pin, int deflt)` (PeopleDetector.ino): read a digital
pin, or return the default when the pin is `NOTUSED`.  The live pin levels
are the function `digitalRead`. -/
def readPin (pin : Int) (deflt : Int) (digitalRead : Int → Int) : Int :=
  if pin ≠ NOTUSED then digitalRead pin else deflt

/-- Modelled from the Arduino core library (not part of this repository):
`long map(long x, long in_min, long in_max, long out_min, long out_max)`
returns `(x - in_min) * (out_max - out_min) / (in_max - in_min) + out_min`,
with C `long` division truncating toward zero (`Int.tdiv`). -/
def arduinoMap (x inMin inMax outMin outMax : Int) : Int :=
  Int.tdiv ((x - inMin) * (outMax - outMin)) (inMax - inMin) + outMin

/-- C conversion of a 32-bit `unsigned long` value to `long`
(two's-complement reinterpretation). -/
def ulongToLong (n : Nat) : Int :=
  if n < 2 ^ 31 then (n : Int) else (n : Int) - 2 ^ 32

/-- C conversion of a `long` value to 32-bit `unsigned long`. -/
def toULong (x : Int) : Nat :=
  (x % (2 ^ 32 : Int)).toNat

/-- `unsigned long getWaitValue(int waitTimePin, unsigned long waitTime)`
(PeopleDetector.ino): the wait time, or, when an analog time pin is
configured, `map(analogRead(waitTimePin), 0, 1023, 0, waitTime)`.  The
analog readings are the function `analogRead` (a 10-bit ADC yields values
in `[0, 1023]`). -/
def getWaitValue (waitTimePin : Int) (waitTime : Nat) (analogRead : Int → Nat) : Nat :=
  if waitTimePin ≠ NOTUSED then
    toULong (arduinoMap (analogRead waitTimePin : Int) 0 1023 0 (ulongToLong waitTime))
  else
    waitTime

/-- `void wait (int waitTimePin, unsigned long waitTime, int waitPin)`
(PeopleDetector.ino): arm the wait engine on entering a state.  When an
end pin is given together with a zero wait time, only `waiting` and
`actionPin` are assigned (pure pin wait); otherwise `waiting`, `waitUntil`
and `actionPin` are all assigned, with `waitUntil = currTime + waitValue`
in 32-bit unsigned arithmetic. -/
def wait (waitTimePin : Int) (waitTime : Nat) (waitPin : Int)
    (currTime : Nat) (analogRead : Int → Nat) (g : Globals) : Globals :=
  if waitPin ≠ NOTUSED ∧ waitTime = 0 then
    { g with waiting := false, actionPin := waitPin }
  else
    { waiting := true,
      waitUntil := (currTime + getWaitValue waitTimePin waitTime analogRead) % ULONG_MOD,
      actionPin := waitPin }

/-- `bool doneWaiting()` (PeopleDetector.ino):
`waiting && (currTime > waitUntil)`. -/
def doneWaiting (g : Globals) (currTime : Nat) : Bool :=
  g.waiting && decide (currTime > g.waitUntil)

/-! ## Event arbitration (first half of `loop`)

`loop` starts from `ACTION_NONE`, then overwrites the action in fixed
order: time expiry (lowest priority), then the armed trigger pin, then
the reset pin (highest priority). -/

/-- The arbitration sequence of `loop` (PeopleDetector.ino): the action
selected for a tick, given the transient globals, the tick's `currTime`,
the live digital pin levels, and the reset pin constant. -/
def identifyAction (g : Globals) (currTime : Nat) (digitalRead : Int → Int)
    (resetPin : Int) : Action :=
  let action := Action.ACTION_NONE
  let action := if doneWaiting g currTime then Action.ACTION_END_TIME else action
  let action := if readPin g.actionPin LOW digitalRead = HIGH then Action.ACTION_TRIGGER else action
  let action := if readPin resetPin LOW digitalRead = HIGH then Action.ACTION_RESET else action
  action

/-! ## State transition (second half of `loop`) -/

/-- The cyclic successor used by the `ACTION_END_TIME`/`ACTION_TRIGGER`
branch of the `switch (state)` in `loop` (PeopleDetector.ino). -/
def nextState : State → State
  | State.STATE_READY => State.STATE_DELAY
  | State.STATE_DELAY => State.STATE_FIRE
  | State.STATE_FIRE => State.STATE_REARM
  | State.STATE_REARM => State.STATE_READY

/-- The `switch (action)` of `loop` (PeopleDetector.ino): the state the
machine is in after responding to the tick's action.  `ACTION_RESET`
changes state to `STATE_READY`; `ACTION_END_TIME` and `ACTION_TRIGGER`
advance to the next cyclic state; `ACTION_NONE` leaves the state alone. -/
def respondToAction (state : State) : Action → State
  | Action.ACTION_RESET => State.STATE_READY
  | Action.ACTION_END_TIME => nextState state
  | Action.ACTION_TRIGGER => nextState state
  | Action.ACTION_NONE => state

/-! ## Theorems -/

/-- C1: For every tick in which the reset pin reads high, the action
produced by the arbitration in `loop` is `ACTION_RESET`, even if the
timer has simultaneously expired and/or the armed end pin simultaneously
reads high; exactly one action is produced per tick, chosen by the fixed
priority end-time < trigger < reset, and `ACTION_NONE` when no condition
holds. -/
theorem identifyAction_priority (g : Globals) (currTime : Nat)
    (digitalRead : Int → Int) (resetPin : Int) :
    (identifyAction g currTime digitalRead resetPin = Action.ACTION_RESET ↔
      readPin resetPin LOW digitalRead = HIGH) ∧
    (identifyAction g currTime digitalRead resetPin = Action.ACTION_TRIGGER ↔
      readPin resetPin LOW digitalRead ≠ HIGH ∧
      readPin g.actionPin LOW digitalRead = HIGH) ∧
    (identifyAction g currTime digitalRead resetPin = Action.ACTION_END_TIME ↔
      readPin resetPin LOW digitalRead ≠ HIGH ∧
      readPin g.actionPin LOW digitalRead ≠ HIGH ∧
      doneWaiting g currTime = true) ∧
    (identifyAction g currTime digitalRead resetPin = Action.ACTION_NONE ↔
      readPin resetPin LOW digitalRead ≠ HIGH ∧
      readPin g.actionPin LOW digitalRead ≠ HIGH ∧
      doneWaiting g currTime = false) := by
  unfold identifyAction
  by_cases h1 : doneWaiting g currTime = true <;>
    by_cases h2 : readPin g.actionPin LOW digitalRead = HIGH <;>
      by_cases h3 : readPin resetPin LOW digitalRead = HIGH <;>
        simp_all

/-- C2: For every current state, responding to `ACTION_RESET` yields
`STATE_READY`, with no precondition on the current state's wait
condition. -/
theorem respondToAction_reset (s : State) :
    respondToAction s Action.ACTION_RESET = State.STATE_READY := rfl

/-- C3: From `STATE_READY`, four `ACTION_END_TIME` (or four
`ACTION_TRIGGER`) responses step through `STATE_DELAY`, `STATE_FIRE`,
`STATE_REARM` and back to `STATE_READY` in that exact order; and for
every state a trigger and an end-time action give the same successor. -/
theorem respondToAction_cycle :
    (respondToAction State.STATE_READY Action.ACTION_END_TIME = State.STATE_DELAY ∧
     respondToAction State.STATE_DELAY Action.ACTION_END_TIME = State.STATE_FIRE ∧
     respondToAction State.STATE_FIRE Action.ACTION_END_TIME = State.STATE_REARM ∧
     respondToAction State.STATE_REARM Action.ACTION_END_TIME = State.STATE_READY) ∧
    (respondToAction State.STATE_READY Action.ACTION_TRIGGER = State.STATE_DELAY ∧
     respondToAction State.STATE_DELAY Action.ACTION_TRIGGER = State.STATE_FIRE ∧
     respondToAction State.STATE_FIRE Action.ACTION_TRIGGER = State.STATE_REARM ∧
     respondToAction State.STATE_REARM Action.ACTION_TRIGGER = State.STATE_READY) ∧
    ∀ s : State,
      respondToAction s Action.ACTION_TRIGGER = respondToAction s Action.ACTION_END_TIME := by
  refine ⟨⟨rfl, rfl, rfl, rfl⟩, ⟨rfl, rfl, rfl, rfl⟩, ?_⟩
  intro s
  cases s <;> rfl

/-- C4: For every timer state and every time value, `doneWaiting` returns
true iff `waiting` is true and the time is strictly greater than the
stored `waitUntil`; in particular at the deadline itself it returns
false. -/
theorem doneWaiting_iff (g : Globals) (now : Nat) :
    (doneWaiting g now = true ↔ g.waiting = true ∧ g.waitUntil < now) ∧
    doneWaiting g g.waitUntil = false := by
  constructor
  · simp [doneWaiting]
  · simp [doneWaiting]

/-- A zero wait time always yields a zero wait value, whether or not an
analog time pin is configured (the linear map sends everything to 0). -/
theorem getWaitValue_zero (waitTimePin : Int) (analogRead : Int → Nat) :
    getWaitValue waitTimePin 0 analogRead = 0 := by
  by_cases h : waitTimePin ≠ NOTUSED <;>
    simp [getWaitValue, h, arduinoMap, ulongToLong, toULong]

/-- C5 counterexample: arming a state with wait time 0 and no end pin at
clock value 5 leaves the machine waiting with deadline 5, and the expiry
check evaluated in that same tick (clock value still 5) returns false —
the expiry condition is not already true in the tick that armed it. -/
theorem wait_zero_not_expired_at_arm_tick :
    (wait NOTUSED 0 NOTUSED 5 (fun _ => 0) ⟨false, 0, NOTUSED⟩).waiting = true ∧
    (wait NOTUSED 0 NOTUSED 5 (fun _ => 0) ⟨false, 0, NOTUSED⟩).waitUntil = 5 ∧
    doneWaiting (wait NOTUSED 0 NOTUSED 5 (fun _ => 0) ⟨false, 0, NOTUSED⟩) 5 = false := by
  refine ⟨rfl, by decide, by decide⟩

/-- C5 amended: arming a zero-duration state with no end pin sets the
deadline to the arm-time clock value itself; the expiry check is still
false at the arm tick (a tie does not count) and becomes true at every
tick whose clock value strictly exceeds the arm-time value, so the state
is passed through as soon as the clock advances, not in the arming tick
itself. -/
theorem wait_zero_duration_no_pin (waitTimePin : Int) (analogRead : Int → Nat)
    (currTime : Nat) (g : Globals) (h : currTime < ULONG_MOD) :
    (wait waitTimePin 0 NOTUSED currTime analogRead g).waiting = true ∧
    (wait waitTimePin 0 NOTUSED currTime analogRead g).waitUntil = currTime ∧
    doneWaiting (wait waitTimePin 0 NOTUSED currTime analogRead g) currTime = false ∧
    ∀ now : Nat, currTime < now →
      doneWaiting (wait waitTimePin 0 NOTUSED currTime analogRead g) now = true := by
  have hv := getWaitValue_zero waitTimePin analogRead
  have hcond : ¬(NOTUSED ≠ NOTUSED ∧ (0 : Nat) = 0) := by simp
  refine ⟨by simp [wait, hcond], ?_, ?_, ?_⟩
  · simp [wait, hcond, hv, Nat.mod_eq_of_lt h]
  · simp [wait, hcond, hv, doneWaiting, Nat.mod_eq_of_lt h]
  · intro now hnow
    simp [wait, hcond, hv, doneWaiting, Nat.mod_eq_of_lt h, hnow]

/-- Witness for C5's amended theorem at the concrete arm time 5. -/
theorem wait_zero_duration_no_pin_witness :
    (5 : Nat) < ULONG_MOD ∧
    ((wait NOTUSED 0 NOTUSED 5 (fun _ => 0) ⟨false, 0, NOTUSED⟩).waiting = true ∧
     (wait NOTUSED 0 NOTUSED 5 (fun _ => 0) ⟨false, 0, NOTUSED⟩).waitUntil = 5 ∧
     doneWaiting (wait NOTUSED 0 NOTUSED 5 (fun _ => 0) ⟨false, 0, NOTUSED⟩) 5 = false ∧
     ∀ now : Nat, 5 < now →
       doneWaiting (wait NOTUSED 0 NOTUSED 5 (fun _ => 0) ⟨false, 0, NOTUSED⟩) now = true) :=
  ⟨by decide, wait_zero_duration_no_pin NOTUSED (fun _ => 0) 5 ⟨false, 0, NOTUSED⟩ (by decide)⟩

/-- C6: arming a state with wait time 0 and an end pin present clears
`waiting`, records the end pin, and makes the expiry check false at every
subsequent clock value until the next arm: only the pin can end such a
state. -/
theorem wait_pin_only_never_expires (waitTimePin waitPin : Int)
    (analogRead : Int → Nat) (currTime : Nat) (g : Globals)
    (h : waitPin ≠ NOTUSED) :
    (wait waitTimePin 0 waitPin currTime analogRead g).waiting = false ∧
    (wait waitTimePin 0 waitPin currTime analogRead g).actionPin = waitPin ∧
    ∀ now : Nat,
      doneWaiting (wait waitTimePin 0 waitPin currTime analogRead g) now = false := by
  refine ⟨by simp [wait, h], by simp [wait, h], ?_⟩
  intro now
  simp [wait, h, doneWaiting]

/-- Witness for C6 with end pin 2 and a previously-waiting timer. -/
theorem wait_pin_only_never_expires_witness :
    (2 : Int) ≠ NOTUSED ∧
    ((wait NOTUSED 0 2 40 (fun _ => 0) ⟨true, 7, NOTUSED⟩).waiting = false ∧
     (wait NOTUSED 0 2 40 (fun _ => 0) ⟨true, 7, NOTUSED⟩).actionPin = 2 ∧
     ∀ now : Nat,
       doneWaiting (wait NOTUSED 0 2 40 (fun _ => 0) ⟨true, 7, NOTUSED⟩) now = false) :=
  ⟨by decide, wait_pin_only_never_expires NOTUSED 2 (fun _ => 0) 40 ⟨true, 7, NOTUSED⟩ (by decide)⟩

/-- C7 counterexample: two `wait` calls with identical arguments but
different prior globals (differing only in the stale `waitUntil` field)
produce different resulting globals in the pure pin-wait branch — the
`waitUntil` field retains its prior value there, so `wait` does not fully
replace the prior timer state. -/
theorem wait_retains_stale_waitUntil :
    wait NOTUSED 0 2 5 (fun _ => 0) ⟨false, 0, NOTUSED⟩ ≠
      wait NOTUSED 0 2 5 (fun _ => 0) ⟨false, 99, NOTUSED⟩ ∧
    (wait NOTUSED 0 2 5 (fun _ => 0) ⟨false, 99, NOTUSED⟩).waitUntil = 99 := by
  refine ⟨by decide, by decide⟩

/-- C7 amended: every `wait` call fully determines the observable timer
behaviour — the resulting `waiting` flag, armed `actionPin`, and the
expiry check at every clock value are independent of the prior globals —
and outside the pure pin-wait branch (end pin present with wait time 0)
the entire resulting record is independent of the prior globals; only the
never-consulted `waitUntil` field can retain its prior value, in that one
branch. -/
theorem wait_replaces_observable_state (waitTimePin : Int) (waitTime : Nat)
    (waitPin : Int) (currTime : Nat) (analogRead : Int → Nat) (g1 g2 : Globals) :
    (wait waitTimePin waitTime waitPin currTime analogRead g1).waiting =
      (wait waitTimePin waitTime waitPin currTime analogRead g2).waiting ∧
    (wait waitTimePin waitTime waitPin currTime analogRead g1).actionPin =
      (wait waitTimePin waitTime waitPin currTime analogRead g2).actionPin ∧
    (∀ now : Nat,
      doneWaiting (wait waitTimePin waitTime waitPin currTime analogRead g1) now =
        doneWaiting (wait waitTimePin waitTime waitPin currTime analogRead g2) now) ∧
    (¬(waitPin ≠ NOTUSED ∧ waitTime = 0) →
      wait waitTimePin waitTime waitPin currTime analogRead g1 =
        wait waitTimePin waitTime waitPin currTime analogRead g2) := by
  by_cases hc : waitPin ≠ NOTUSED ∧ waitTime = 0 <;>
    simp [wait, hc, doneWaiting]

/-- C `long` division truncates toward zero; on two natural-number casts
it agrees with natural-number division. -/
theorem tdiv_coe (m n : Nat) : Int.tdiv (m : Int) (n : Int) = ((m / n : Nat) : Int) := by
  simp [Int.tdiv]

/-- Converting a `long` value that is a small natural number to
`unsigned long` is the identity. -/
theorem toULong_coe (k : Nat) (h : k < 2 ^ 32) : toULong (k : Int) = k := by
  unfold toULong
  omega

/-- With an analog time pin configured, `getWaitValue` is the linear map
of the raw reading from `[0, 1023]` onto `[0, waitTime]`:
`raw * waitTime / 1023` (integer division), provided the reading is in
ADC range and the wait time fits in a C `long`. -/
theorem getWaitValue_analog (waitTimePin : Int) (waitTime : Nat)
    (analogRead : Int → Nat) (hpin : waitTimePin ≠ NOTUSED)
    (hraw : analogRead waitTimePin ≤ 1023) (hw : waitTime < 2 ^ 31) :
    getWaitValue waitTimePin waitTime analogRead =
      analogRead waitTimePin * waitTime / 1023 := by
  have hlong : ulongToLong waitTime = (waitTime : Int) := by
    unfold ulongToLong
    rw [if_pos hw]
  have hmap : arduinoMap ((analogRead waitTimePin : Nat) : Int) 0 1023 0 (waitTime : Int) =
      ((analogRead waitTimePin * waitTime / 1023 : Nat) : Int) := by
    unfold arduinoMap
    simp only [sub_zero, add_zero, ← Nat.cast_mul]
    exact tdiv_coe _ 1023
  have hle : analogRead waitTimePin * waitTime / 1023 ≤ waitTime := by
    calc analogRead waitTimePin * waitTime / 1023
        ≤ 1023 * waitTime / 1023 :=
          Nat.div_le_div_right (Nat.mul_le_mul_right _ hraw)
      _ = waitTime := Nat.mul_div_cancel_left waitTime (by norm_num)
  have hlt : analogRead waitTimePin * waitTime / 1023 < 2 ^ 32 :=
    lt_of_le_of_lt hle (lt_trans hw (by norm_num))
  unfold getWaitValue
  rw [if_pos hpin, hlong, hmap, toULong_coe _ hlt]

/-- C8: the effective wait duration is the unscaled wait time when no
analog time pin is configured; with a pin configured it is the linear map
of the raw reading from `[0, 1023]` onto `[0, waitTime]`; at the FIRE
state's configuration (`FIRE_TIME = 10000` ms) a raw reading of 511
scales to 4995 ms, and after arming at any clock value the timer expires
exactly when strictly more than 4995 ms have elapsed from the arm time
(shown concretely: armed at 1000, not expired at 5995, expired at
5996). -/
theorem getWaitValue_linear_scaling :
    (∀ (waitTime : Nat) (analogRead : Int → Nat),
       getWaitValue NOTUSED waitTime analogRead = waitTime) ∧
    (∀ (waitTimePin : Int) (waitTime : Nat) (analogRead : Int → Nat),
       waitTimePin ≠ NOTUSED → analogRead waitTimePin ≤ 1023 → waitTime < 2 ^ 31 →
       getWaitValue waitTimePin waitTime analogRead =
         analogRead waitTimePin * waitTime / 1023) ∧
    getWaitValue FIRE_TIME_PIN FIRE_TIME (fun _ => 511) = 4995 ∧
    (∀ (armTime t : Nat) (waitPin : Int) (g : Globals),
       armTime + 4995 < ULONG_MOD →
       (doneWaiting (wait FIRE_TIME_PIN FIRE_TIME waitPin armTime (fun _ => 511) g)
           (armTime + t) = true ↔ 4995 < t)) ∧
    doneWaiting
      (wait FIRE_TIME_PIN FIRE_TIME NOTUSED 1000 (fun _ => 511) ⟨false, 0, NOTUSED⟩)
      5995 = false ∧
    doneWaiting
      (wait FIRE_TIME_PIN FIRE_TIME NOTUSED 1000 (fun _ => 511) ⟨false, 0, NOTUSED⟩)
      5996 = true := by
  have hval : getWaitValue FIRE_TIME_PIN FIRE_TIME (fun _ => 511) = 4995 := by decide
  refine ⟨fun waitTime analogRead => by simp [getWaitValue],
          fun waitTimePin waitTime analogRead hpin hraw hw =>
            getWaitValue_analog waitTimePin waitTime analogRead hpin hraw hw,
          hval, ?_, by decide, by decide⟩
  intro armTime t waitPin g hbound
  have hcond : ¬(waitPin ≠ NOTUSED ∧ FIRE_TIME = 0) := by
    simp [FIRE_TIME]
  simp only [wait, hcond, if_neg hcond, hval, doneWaiting]
  simp [Nat.mod_eq_of_lt hbound]

/-- C10: the deadline is `currTime + waitValue` in 32-bit unsigned
arithmetic and expiry is the naive strict comparison, so whenever the
addition wraps around `2 ^ 32` (making the stored deadline numerically
smaller than the arm-time clock value), the expiry check is already true
one millisecond after arming, even though the effective duration is
larger than one millisecond — the state ends before its configured
duration has elapsed. -/
theorem wait_wraparound (waitTimePin waitPin : Int) (waitTime : Nat)
    (analogRead : Int → Nat) (currTime : Nat) (g : Globals)
    (hbranch : ¬(waitPin ≠ NOTUSED ∧ waitTime = 0))
    (hnow : currTime + 1 < ULONG_MOD)
    (hwrap : ULONG_MOD ≤ currTime + getWaitValue waitTimePin waitTime analogRead)
    (hval : getWaitValue waitTimePin waitTime analogRead < ULONG_MOD) :
    (wait waitTimePin waitTime waitPin currTime analogRead g).waitUntil < currTime ∧
    doneWaiting (wait waitTimePin waitTime waitPin currTime analogRead g)
      (currTime + 1) = true ∧
    1 < getWaitValue waitTimePin waitTime analogRead := by
  have hM : ULONG_MOD = 4294967296 := by norm_num [ULONG_MOD]
  unfold wait
  rw [if_neg hbranch]
  unfold doneWaiting
  simp only [Bool.true_and, decide_eq_true_eq, gt_iff_lt]
  rw [hM] at hnow hwrap hval ⊢
  omega

/-- Witness for C10: arming a 10 ms wait at clock value `2 ^ 32 - 5`
wraps the deadline to 5, and the expiry check fires one tick later. -/
theorem wait_wraparound_witness :
    (¬((NOTUSED : Int) ≠ NOTUSED ∧ (10 : Nat) = 0) ∧
     4294967291 + 1 < ULONG_MOD ∧
     ULONG_MOD ≤ 4294967291 + getWaitValue NOTUSED 10 (fun _ => 0) ∧
     getWaitValue NOTUSED 10 (fun _ => 0) < ULONG_MOD) ∧
    ((wait NOTUSED 10 NOTUSED 4294967291 (fun _ => 0) ⟨false, 0, NOTUSED⟩).waitUntil <
       4294967291 ∧
     doneWaiting (wait NOTUSED 10 NOTUSED 4294967291 (fun _ => 0) ⟨false, 0, NOTUSED⟩)
       (4294967291 + 1) = true ∧
     1 < getWaitValue NOTUSED 10 (fun _ => 0)) :=
  ⟨⟨by decide, by decide, by decide, by decide⟩,
   wait_wraparound NOTUSED NOTUSED 10 (fun _ => 0) 4294967291 ⟨false, 0, NOTUSED⟩
     (by decide) (by decide) (by decide) (by decide)⟩

/-! ## Side-effect order of `changeState` (for the indicator claims)

`changeState` performs, in program order: `allLedsOff()` (four
`writePin(_, LOW)` calls, one per indicator), then `wait(...)` for the
new state, then `writePin(indicatorPin, HIGH)`.  The order is captured
as an explicit effect trace, and the digital writes are given their
`writePin` semantics on a pin-level map. -/

/-- One observable side effect of `changeState`: a `writePin` call or the
`wait(...)` re-arm of the timer engine. -/
inductive Effect where
  | write (pin : Int) (level : Int)
  | armWait (waitTimePin : Int) (waitTime : Nat) (waitPin : Int)
  deriving DecidableEq, Repr

/-- `void allLedsOff()` (PeopleDetector.ino): write LOW to the four
indicator pins, in program order. -/
def allLedsOffTrace : List Effect :=
  [Effect.write READY_PIN LOW, Effect.write DELAY_PIN LOW,
   Effect.write FIRE_PIN LOW, Effect.write REARM_PIN LOW]

/-- The `wait(<state>_TIME_PIN, <state>_TIME, END_<state>_PIN)` call made
by the `switch (newstate)` of `changeState` (PeopleDetector.ino). -/
def stateWaitEffect : State → Effect
  | State.STATE_READY => Effect.armWait READY_TIME_PIN READY_TIME END_READY_PIN
  | State.STATE_DELAY => Effect.armWait DELAY_TIME_PIN DELAY_TIME END_DELAY_PIN
  | State.STATE_FIRE => Effect.armWait FIRE_TIME_PIN FIRE_TIME END_FIRE_PIN
  | State.STATE_REARM => Effect.armWait REARM_TIME_PIN REARM_TIME END_REARM_PIN

/-- The `indicatorPin` chosen by the `switch (newstate)` of `changeState`
(PeopleDetector.ino). -/
def indicatorPin : State → Int
  | State.STATE_READY => READY_PIN
  | State.STATE_DELAY => DELAY_PIN
  | State.STATE_FIRE => FIRE_PIN
  | State.STATE_REARM => REARM_PIN

/-- The effect trace of `changeState(newstate)` (PeopleDetector.ino), in
program order: all indicators off, then the re-arm, then the new state's
indicator asserted. -/
def changeStateTrace (newstate : State) : List Effect :=
  allLedsOffTrace ++ [stateWaitEffect newstate, Effect.write (indicatorPin newstate) HIGH]

/-- `void writePin (int pin, uint8_t state)` (PeopleDetector.ino) as a
transformation of the pin-level map: a no-op on `NOTUSED`. -/
def writePinLevels (L : Int → Int) (pin : Int) (level : Int) : Int → Int :=
  if pin ≠ NOTUSED then fun p => if p = pin then level else L p else L

/-- Apply one effect to the pin-level map (the re-arm does not touch any
output pin). -/
def applyEffect (L : Int → Int) : Effect → (Int → Int)
  | Effect.write pin level => writePinLevels L pin level
  | Effect.armWait _ _ _ => L

/-- Apply a trace of effects to the pin-level map, in order. -/
def applyEffects (L : Int → Int) (es : List Effect) : Int → Int :=
  es.foldl applyEffect L

/-- How many of the four indicator output pins currently read HIGH. -/
def litIndicators (L : Int → Int) : Nat :=
  (if L READY_PIN = HIGH then 1 else 0) + (if L DELAY_PIN = HIGH then 1 else 0) +
    (if L FIRE_PIN = HIGH then 1 else 0) + (if L REARM_PIN = HIGH then 1 else 0)

/-- C9: `changeState` performs, in program order, all indicator writes
LOW, then the timer re-arm, then the new state's indicator write HIGH;
after the off-phase every indicator reads LOW, and — provided at most one
indicator was lit beforehand — after every prefix of the transition's
effects at most one indicator is lit, with exactly the new state's
indicator lit at the end.  So no two indicator outputs are ever high
simultaneously during or between transitions. -/
theorem changeState_indicator_exclusion (newstate : State) (L : Int → Int)
    (h : litIndicators L ≤ 1) :
    changeStateTrace newstate =
      allLedsOffTrace ++ [stateWaitEffect newstate] ++
        [Effect.write (indicatorPin newstate) HIGH] ∧
    litIndicators (applyEffects L allLedsOffTrace) = 0 ∧
    (∀ n : Nat, litIndicators (applyEffects L ((changeStateTrace newstate).take n)) ≤ 1) ∧
    litIndicators (applyEffects L (changeStateTrace newstate)) = 1 ∧
    applyEffects L (changeStateTrace newstate) (indicatorPin newstate) = HIGH := by
  simp only [litIndicators, READY_PIN, DELAY_PIN, FIRE_PIN, REARM_PIN, HIGH] at h
  refine ⟨by cases newstate <;> rfl, ?_, ?_, ?_, ?_⟩
  · simp [allLedsOffTrace, applyEffects, applyEffect, writePinLevels, litIndicators,
          READY_PIN, DELAY_PIN, FIRE_PIN, REARM_PIN, HIGH, LOW, NOTUSED]
  · intro n
    cases newstate <;>
      rcases n with _ | _ | _ | _ | _ | _ | m <;>
        simp [changeStateTrace, allLedsOffTrace, stateWaitEffect, indicatorPin,
              applyEffects, applyEffect, writePinLevels, litIndicators,
              READY_PIN, DELAY_PIN, FIRE_PIN, REARM_PIN, HIGH, LOW, NOTUSED] <;>
          split_ifs at h ⊢ <;> omega
  · cases newstate <;>
      simp [changeStateTrace, allLedsOffTrace, stateWaitEffect, indicatorPin,
            applyEffects, applyEffect, writePinLevels, litIndicators,
            READY_PIN, DELAY_PIN, FIRE_PIN, REARM_PIN, HIGH, LOW, NOTUSED]
  · cases newstate <;>
      simp [changeStateTrace, allLedsOffTrace, stateWaitEffect, indicatorPin,
            applyEffects, applyEffect, writePinLevels,
            READY_PIN, DELAY_PIN, FIRE_PIN, REARM_PIN, HIGH, LOW, NOTUSED]

/-- Witness for C9: a transition to `STATE_FIRE` from a pin map with no
indicator lit. -/
theorem changeState_indicator_exclusion_witness :
    litIndicators (fun _ => 0) ≤ 1 ∧
    (changeStateTrace State.STATE_FIRE =
       allLedsOffTrace ++ [stateWaitEffect State.STATE_FIRE] ++
         [Effect.write (indicatorPin State.STATE_FIRE) HIGH] ∧
     litIndicators (applyEffects (fun _ => 0) allLedsOffTrace) = 0 ∧
     (∀ n : Nat,
       litIndicators
         (applyEffects (fun _ => 0) ((changeStateTrace State.STATE_FIRE).take n)) ≤ 1) ∧
     litIndicators (applyEffects (fun _ => 0) (changeStateTrace State.STATE_FIRE)) = 1 ∧
     applyEffects (fun _ => 0) (changeStateTrace State.STATE_FIRE)
       (indicatorPin State.STATE_FIRE) = HIGH) :=
  ⟨by decide, changeState_indicator_exclusion State.STATE_FIRE (fun _ => 0) (by decide)⟩

end PeopleDetector
